import Mathlib

/-!
Verification of the data-governance / trust-scoring core of the repository
(`src/main.py`): the contract store (`DataContractEngine`), the schema change
detector, the governance metrics aggregator (`GovernanceEngine`) and the trust
score engine (`TrustScoreEngine`).

Shallow embedding conventions:
* Python floats are modelled by `ℚ` (all arithmetic in the scorers is exact
  decimal arithmetic on small numbers, so `ℚ` is faithful).
* Python dicts keyed by strings are modelled by association lists
  `List (String × α)` in insertion order; dict membership and indexing follow
  Python semantics (first key occurrence determines order, last assignment
  determines the value).
* Python truthiness is modelled field by field: a missing-or-empty string is
  `""`, a missing list is `[]`, `table["owner"]["name"]` is the `ownerName`
  field with `""` for absent, numeric fields are falsy exactly when `0`.
* `datetime.now()` is passed in explicitly (as epoch milliseconds) so that the
  functions are pure; the source samples it per call.
-/

namespace DataStrategy

/-! ## Generic string helpers (Python `in`, `split(...)[-1]`, `.lower()`) -/

/-- Test `isPrefixOfL p l` : `p` is a prefix of `l` (on character lists). -/
def isPrefixOfL : List Char → List Char → Bool
  | [], _ => true
  | _ :: _, [] => false
  | a :: as, b :: bs => a == b && isPrefixOfL as bs

/-- Test `containsSubL pat l` : `pat` occurs as a contiguous sublist of `l`
(Python `pat in s`). -/
def containsSubL (pat : List Char) : List Char → Bool
  | [] => pat.isEmpty
  | l@(_ :: rest) => isPrefixOfL pat l || containsSubL pat rest

/-- Python substring test `pat in s`. -/
def containsStr (s pat : String) : Bool :=
  containsSubL pat.data s.data

/-- The part of `l` strictly before the first occurrence of `pat`
(all of `l` when `pat` does not occur). -/
def beforeFirst (pat : List Char) : List Char → List Char
  | [] => []
  | l@(c :: rest) => if isPrefixOfL pat l then [] else c :: beforeFirst pat rest

/-- Python `s.split(pat)[-1]`: the part of `s` after the last occurrence of
`pat` (`s` itself when `pat` does not occur). -/
def suffixAfterLast (s pat : String) : String :=
  if containsStr s pat then
    ⟨(beforeFirst pat.data.reverse s.data.reverse).reverse⟩
  else s

/-- Python `s.lower()` (ASCII, which is all the source uses). -/
def lowerStr (s : String) : String :=
  ⟨s.data.map Char.toLower⟩

/-! ## Dict-of-columns helpers

`current_columns = {col["name"]: col for col in table.get("columns", [])}`:
key order is the first occurrence of each name, the value is the last
column with that name. -/

/-- Key order of a Python dict comprehension over a list of names:
first occurrences, in order. -/
def dedupKeys : List String → List String
  | [] => []
  | n :: rest => n :: (dedupKeys rest).filter (fun m => m != n)

/-- Value stored in the dict for key `n`: the last element with that name. -/
def lookupLast {α : Type} (name : α → String) (l : List α) (n : String) :
    Option α :=
  l.reverse.find? (fun c => name c == n)

/-! ## Data model (`src/main.py`, DATA CLASSES) -/

/-- An OpenMetadata tag reference: a dict `{"tagFQN": ...}`. -/
structure Tag where
  tagFQN : String
  deriving DecidableEq, Repr

/-- A table column as consumed by the core (`name`, `dataType`, `description`,
`tags`); `dataType` is the "data type string" of the TableRecord data model. -/
structure Column where
  name : String
  dataType : String
  description : String
  tags : List Tag
  deriving DecidableEq, Repr

/-- The table's `updatedAt` field: absent (or another falsy value), an
unparseable (truthy but non-numeric) value, or epoch milliseconds. -/
inductive UpdatedAt where
  | absent
  | invalid
  | ms (t : Int)
  deriving DecidableEq, Repr

/-- Python truthiness of `table.get("updatedAt")`. -/
def UpdatedAt.truthy : UpdatedAt → Bool
  | .absent => false
  | .invalid => true
  | .ms t => t != 0

/-- A TableRecord as consumed by the core. `ownerName` models
`table.get("owner", {}).get("name")` with `""` for absent. -/
structure TableRecord where
  fullyQualifiedName : String
  name : String
  columns : List Column
  ownerName : String
  tags : List Tag
  updatedAt : UpdatedAt
  description : String
  rowCount : Int
  deriving DecidableEq, Repr

/-- One column entry of a contract's `schema_definition`. -/
structure SchemaCol where
  dataType : String
  nullable : Bool
  description : String
  isPII : Bool
  deriving DecidableEq, Repr

/-- A `change_log` entry (timestamps as epoch milliseconds). -/
structure ChangeLogEntry where
  timestamp : Int
  action : String
  user : String
  details : String
  notes : String
  deriving DecidableEq, Repr

/-- An `approval_history` entry. -/
structure ApprovalEntry where
  timestamp : Int
  approver : String
  notes : String
  deriving DecidableEq, Repr

/-- The `DataContract` dataclass (the fields the core reads/writes).
`sla_freshness_hours` models `sla_requirements.get("freshness_hours")`
(`none` when the dict lacks the key). -/
structure DataContract where
  id : String
  table_fqn : String
  status : String
  owner : String
  last_modified : Int
  schema_definition : List (String × SchemaCol)
  quality_rules : List String
  sla_freshness_hours : Option Int
  classification : String
  business_purpose : String
  registered_consumers : List String
  downstream_tables : List String
  retention_days : Option Int
  contains_pii : Bool
  compliance_requirements : List String
  change_log : List ChangeLogEntry
  approval_history : List ApprovalEntry
  deriving DecidableEq, Repr

/-- The contract store `self.contracts : Dict[str, DataContract]` as an
association list keyed by FQN (insertion order, unique keys). -/
abbrev Contracts := List (String × DataContract)

/-- Python `contracts[fqn]` / `fqn in contracts` (membership as `isSome`). -/
def lookupContract (cs : Contracts) (fqn : String) : Option DataContract :=
  (cs.find? (fun p => p.1 == fqn)).map (fun p => p.2)

/-! ## DataContractEngine.update_contract_status -/

/-- Embeds `DataContractEngine.update_contract_status(fqn, new_status, user, notes)`.
Returns the boolean result together with the updated store (the source
mutates the stored contract in place). -/
def update_contract_status (store : Contracts) (fqn new_status user notes : String)
    (now : Int) : Bool × Contracts :=
  match lookupContract store fqn with
  | none => (false, store)
  | some contract =>
    let old_status := contract.status
    let contract' : DataContract :=
      { contract with
        status := new_status
        last_modified := now
        change_log := contract.change_log ++
          [{ timestamp := now, action := "status_change", user := user,
             details := s!"{old_status} → {new_status}", notes := notes }]
        approval_history :=
          if new_status == "active" then
            contract.approval_history ++
              [{ timestamp := now, approver := user, notes := notes }]
          else contract.approval_history }
    (true, store.map (fun p => if p.1 == fqn then (p.1, contract') else p))

/-! ## DataContractEngine.detect_schema_changes -/

/-- The `SchemaChange` dataclass. -/
structure SchemaChange where
  table_fqn : String
  change_type : String
  column_name : String
  old_value : Option String
  new_value : Option String
  detected_at : Int
  severity : String
  impact_level : String
  requires_approval : Bool
  deriving DecidableEq, Repr

/-- Embeds `current_columns[col_name].get("dataType", "UNKNOWN")` for a column name
of the current table (`lookupLast` is the dict's value for that key). -/
def currentDataType (cols : List Column) (n : String) : String :=
  match lookupLast Column.name cols n with
  | some c => c.dataType
  | none => "UNKNOWN"

/-- Embeds `DataContractEngine.detect_schema_changes(fqn, current_table)`:
removals (contract key order), then additions (current-column dict order),
then type changes (contract key order). -/
def detect_schema_changes (store : Contracts) (fqn : String)
    (current_table : TableRecord) (now : Int) : List SchemaChange :=
  match lookupContract store fqn with
  | none => []
  | some contract =>
    let currentNames := current_table.columns.map Column.name
    let currentKeys := dedupKeys currentNames
    let contract_columns := contract.schema_definition
    let contractKeys := contract_columns.map Prod.fst
    let removed : List SchemaChange :=
      (contract_columns.filter (fun p => !(currentNames.contains p.1))).map
        (fun p =>
          { table_fqn := fqn, change_type := "removed", column_name := p.1,
            old_value := some p.2.dataType, new_value := none,
            detected_at := now, severity := "breaking", impact_level := "high",
            requires_approval := true })
    let added : List SchemaChange :=
      (currentKeys.filter (fun n => !(contractKeys.contains n))).map
        (fun n =>
          { table_fqn := fqn, change_type := "added", column_name := n,
            old_value := none,
            new_value := some (currentDataType current_table.columns n),
            detected_at := now, severity := "non-breaking",
            impact_level := "low", requires_approval := false })
    let type_changed : List SchemaChange :=
      (contract_columns.filter (fun p =>
          currentNames.contains p.1 &&
          p.2.dataType != currentDataType current_table.columns p.1)).map
        (fun p =>
          { table_fqn := fqn, change_type := "type_changed",
            column_name := p.1, old_value := some p.2.dataType,
            new_value := some (currentDataType current_table.columns p.1),
            detected_at := now, severity := "breaking", impact_level := "high",
            requires_approval := true })
    removed ++ added ++ type_changed

/-! ## GovernanceEngine -/

/-- The `GovernanceMetrics` dataclass (counts; the coverage properties are
separate functions below, as in the source's `@property` methods). -/
structure GovernanceMetrics where
  total_assets : Nat
  owned_assets : Nat
  documented_assets : Nat
  classified_assets : Nat
  contracted_assets : Nat
  compliant_assets : Nat
  deriving DecidableEq, Repr

/-- Embeds `GovernanceMetrics.ownership_coverage`. -/
def GovernanceMetrics.ownership_coverage (m : GovernanceMetrics) : ℚ :=
  if 0 < m.total_assets then (m.owned_assets : ℚ) / (m.total_assets : ℚ) * 100
  else 0

/-- Embeds `GovernanceMetrics.documentation_coverage`. -/
def GovernanceMetrics.documentation_coverage (m : GovernanceMetrics) : ℚ :=
  if 0 < m.total_assets then
    (m.documented_assets : ℚ) / (m.total_assets : ℚ) * 100
  else 0

/-- Embeds `GovernanceMetrics.classification_coverage`. -/
def GovernanceMetrics.classification_coverage (m : GovernanceMetrics) : ℚ :=
  if 0 < m.total_assets then
    (m.classified_assets : ℚ) / (m.total_assets : ℚ) * 100
  else 0

/-- Embeds `GovernanceMetrics.contract_coverage`. -/
def GovernanceMetrics.contract_coverage (m : GovernanceMetrics) : ℚ :=
  if 0 < m.total_assets then
    (m.contracted_assets : ℚ) / (m.total_assets : ℚ) * 100
  else 0

/-- Embeds `GovernanceMetrics.compliance_rate`. -/
def GovernanceMetrics.compliance_rate (m : GovernanceMetrics) : ℚ :=
  if 0 < m.total_assets then
    (m.compliant_assets : ℚ) / (m.total_assets : ℚ) * 100
  else 0

/-- The `compliant` test in `calculate_governance_metrics`: the table's FQN
has a contract whose status is `"active"` and whose classification is truthy. -/
def isCompliant (contracts : Contracts) (t : TableRecord) : Bool :=
  match lookupContract contracts t.fullyQualifiedName with
  | some c => c.status == "active" && c.classification != ""
  | none => false

/-- Embeds `GovernanceEngine.calculate_governance_metrics(tables, contracts)`. -/
def calculate_governance_metrics (tables : List TableRecord)
    (contracts : Contracts) : GovernanceMetrics :=
  { total_assets := tables.length
    owned_assets := (tables.filter (fun t => t.ownerName != "")).length
    documented_assets := (tables.filter (fun t => t.description != "")).length
    classified_assets := (tables.filter (fun t => !t.tags.isEmpty)).length
    contracted_assets := contracts.length
    compliant_assets := (tables.filter (isCompliant contracts)).length }

/-- Python `"PII" in str(tags)` for a list of `{"tagFQN": ...}` dicts: the
literal `PII` can only occur inside one of the `tagFQN` values. -/
def tagsMentionPII (tags : List Tag) : Bool :=
  tags.any (fun tg => containsStr tg.tagFQN "PII")

/-- The five gap lists of `GovernanceEngine.identify_governance_gaps`. -/
structure GovernanceGaps where
  no_owner : List String
  no_description : List String
  no_classification : List String
  no_contract : List String
  contains_pii_unclassified : List String
  deriving DecidableEq, Repr

/-- Embeds `GovernanceEngine.identify_governance_gaps(tables, contracts)`. Note the
PII gap tests `"PII" in str(table.get("tags", []))` — the TABLE-level tags. -/
def identify_governance_gaps (tables : List TableRecord)
    (contracts : Contracts) : GovernanceGaps :=
  { no_owner := (tables.filter (fun t => t.ownerName == "")).map
      TableRecord.fullyQualifiedName
    no_description := (tables.filter (fun t => t.description == "")).map
      TableRecord.fullyQualifiedName
    no_classification := (tables.filter (fun t => t.tags.isEmpty)).map
      TableRecord.fullyQualifiedName
    no_contract := (tables.filter (fun t =>
      (lookupContract contracts t.fullyQualifiedName).isNone)).map
      TableRecord.fullyQualifiedName
    contains_pii_unclassified := (tables.filter (fun t =>
      tagsMentionPII t.tags &&
      (lookupContract contracts t.fullyQualifiedName).isNone)).map
      TableRecord.fullyQualifiedName }

/-! ## TrustScoreEngine: component scorers

Each scorer returns `(score, improvements, strengths)` exactly as the source
does; the score contributions are bound by name, accumulated in source order. -/

/-- The "known data type" test of the data-quality scorer:
`c.get("dataType") not in ["", "UNKNOWN"]`. -/
def knownDataType (c : Column) : Bool :=
  c.dataType != "" && c.dataType != "UNKNOWN"

/-- Embeds `TrustScoreEngine.calculate_data_quality_score(table, contracts)`. -/
def calculate_data_quality_score (table : TableRecord) (contracts : Contracts) :
    ℚ × List String × List String :=
  let fqn := table.fullyQualifiedName
  let columns := table.columns
  let typed_columns := columns.filter knownDataType
  let tc := typed_columns.length
  let nc := columns.length
  let type_coverage : ℚ := ((tc : ℚ) / (nc : ℚ)) * 30
  let rulesPart : ℚ × List String × List String :=
    match lookupContract contracts fqn with
    | some contract =>
      if !contract.quality_rules.isEmpty then
        (30, [], ["Quality rules defined"])
      else (0, ["Define quality rules"], [])
    | none => (0, ["Create data contract with quality rules"], [])
  let colsPart : ℚ × List String × List String :=
    if !columns.isEmpty then
      if !typed_columns.isEmpty then
        if 25 ≤ type_coverage then
          (20 + type_coverage, [],
           [s!"Strong data type coverage ({tc}/{nc} columns)"])
        else (20 + type_coverage, ["Improve data type definitions"], [])
      else (20, [], [])
    else (0, ["Define table schema"], [])
  let score : ℚ := 20 + rulesPart.1 + colsPart.1
  (min score 100, rulesPart.2.1 ++ colsPart.2.1, rulesPart.2.2 ++ colsPart.2.2)

/-- The `status_scores` dict lookup with default `0`. -/
def status_scores (status : String) : ℚ :=
  if status == "active" then 35
  else if status == "review" then 25
  else if status == "draft" then 10
  else if status == "deprecated" then 5
  else 0

/-- The status-dependent advice of the contract-availability scorer. -/
def statusAdvice (status : String) : List String × List String :=
  if status == "active" then ([], ["Contract is active"])
  else if status == "review" then
    (["Activate contract after review"], [])
  else if status == "draft" then
    (["Move contract from draft to review/active"], [])
  else ([], [])

/-- The SLA check of the contract-availability scorer
(`contract.sla_requirements and contract.sla_requirements.get("freshness_hours")`). -/
def slaPart (contract : DataContract) : ℚ × List String × List String :=
  if (contract.sla_freshness_hours.getD 0) != 0 then
    (15, [], ["SLA requirements defined"])
  else (0, ["Define SLA requirements"], [])

/-- The schema-definition completeness check of the contract-availability
scorer. -/
def schemaDefPart (contract : DataContract) : ℚ × List String :=
  if !contract.schema_definition.isEmpty then (10, [])
  else (0, ["Complete schema definition in contract"])

/-- Embeds `TrustScoreEngine.calculate_contract_availability_score(table, contracts)`. -/
def calculate_contract_availability_score (table : TableRecord)
    (contracts : Contracts) : ℚ × List String × List String :=
  match lookupContract contracts table.fullyQualifiedName with
  | none => (0, ["Create data contract"], [])
  | some contract =>
    let score : ℚ := 40 + status_scores contract.status +
      (slaPart contract).1 + (schemaDefPart contract).1
    (min score 100,
     (statusAdvice contract.status).1 ++ (slaPart contract).2.1 ++
       (schemaDefPart contract).2,
     ["Data contract exists"] ++ (statusAdvice contract.status).2 ++
       (slaPart contract).2.2)

/-- Hours elapsed since an epoch-millisecond timestamp `t`, at time `now_ms`:
`(datetime.now() - datetime.fromtimestamp(t / 1000)).total_seconds() / 3600`. -/
def freshness_hours (t now_ms : Int) : ℚ :=
  ((now_ms : ℚ) - (t : ℚ)) / 3600000

/-- Embeds `TrustScoreEngine.calculate_freshness_score(table)`. The source first
tests `if not updated_at` (so an absent OR zero timestamp short-circuits),
then converts inside `try/except` (an unparseable value scores 0). -/
def calculate_freshness_score (table : TableRecord) (now_ms : Int) :
    ℚ × List String × List String :=
  match table.updatedAt with
  | .absent => (0, ["Enable update timestamp tracking"], [])
  | .invalid => (0, ["Invalid update timestamp"], [])
  | .ms t =>
    if t == 0 then (0, ["Enable update timestamp tracking"], [])
    else
      let hours_since_update := freshness_hours t now_ms
      let res : ℚ × List String × List String :=
        if hours_since_update ≤ 1 then
          (100, [], ["Data updated within last hour (real-time fresh)"])
        else if hours_since_update ≤ 6 then
          (95, [], ["Data updated within last 6 hours"])
        else if hours_since_update ≤ 24 then
          (85, [], ["Data updated within last 24 hours"])
        else if hours_since_update ≤ 48 then (70, [], [])
        else if hours_since_update ≤ 168 then
          (50, ["Data not updated in several days"], [])
        else (20, ["Data is stale (not updated in over a week)"], [])
      (min res.1 100, res.2.1, res.2.2)

/-- The table-description block of the documentation scorer. -/
def descPart (description : String) : ℚ × List String × List String :=
  if description != "" && description.length > 20 then
    (30, [], ["Table has comprehensive description"])
  else if description != "" then (15, ["Expand table description"], [])
  else (0, ["Add table description"], [])

/-- The column-descriptions block of the documentation scorer. -/
def docColumnsPart (columns : List Column) : ℚ × List String × List String :=
  let documented_columns := columns.filter (fun c => c.description != "")
  let dc := documented_columns.length
  let nc := columns.length
  let doc_coverage : ℚ := ((dc : ℚ) / (nc : ℚ)) * 30
  if !columns.isEmpty then
    if 25 ≤ doc_coverage then
      (doc_coverage, [], [s!"Strong column documentation ({dc}/{nc} columns)"])
    else if 10 ≤ doc_coverage then (doc_coverage, ["Document more columns"], [])
    else (doc_coverage, ["Add column descriptions"], [])
  else (0, [], [])

/-- The tags block of the documentation scorer. -/
def docTagsPart (tags : List Tag) : ℚ × List String × List String :=
  if !tags.isEmpty then (15, [], ["Table is tagged"])
  else (0, ["Add relevant tags"], [])

/-- The business-purpose block of the documentation scorer. -/
def purposePart (oc : Option DataContract) : ℚ × List String × List String :=
  match oc with
  | some contract =>
    if contract.business_purpose != "" && contract.business_purpose.length > 10
    then (15, [], ["Business purpose documented"])
    else (0, ["Document business purpose in contract"], [])
  | none => (0, ["Create contract to document business purpose"], [])

/-- The owner block of the documentation scorer. -/
def docOwnerPart (ownerName : String) : ℚ × List String :=
  if ownerName != "" then (10, []) else (0, ["Assign table owner"])

/-- Embeds `TrustScoreEngine.calculate_documentation_score(table, contracts)`. -/
def calculate_documentation_score (table : TableRecord) (contracts : Contracts) :
    ℚ × List String × List String :=
  let dp := descPart table.description
  let cp := docColumnsPart table.columns
  let tp := docTagsPart table.tags
  let pp := purposePart (lookupContract contracts table.fullyQualifiedName)
  let op := docOwnerPart table.ownerName
  let score := dp.1 + cp.1 + tp.1 + pp.1 + op.1
  (min score 100,
   dp.2.1 ++ cp.2.1 ++ tp.2.1 ++ pp.2.1 ++ op.2,
   dp.2.2 ++ cp.2.2 ++ tp.2.2 ++ pp.2.2)

/-- The downstream-tables block of the lineage scorer. -/
def downstreamPart (downstream_count : Nat) : ℚ × List String × List String :=
  if 5 < downstream_count then
    (35, [], [s!"High usage: {downstream_count} downstream dependencies"])
  else if 2 < downstream_count then
    (25, [], [s!"Moderate usage: {downstream_count} downstream dependencies"])
  else if 0 < downstream_count then (15, [], [])
  else (0, ["No downstream dependencies tracked"], [])

/-- The registered-consumers block of the lineage scorer. -/
def consumersPart (consumer_count : Nat) : ℚ × List String × List String :=
  if 3 ≤ consumer_count then
    (35, [], [s!"{consumer_count} registered consumers"])
  else if 1 ≤ consumer_count then
    (20, [], [s!"{consumer_count} registered consumer(s)"])
  else (0, ["Register data consumers"], [])

/-- The contract-dependent block of the lineage scorer. -/
def lineageContractPart (oc : Option DataContract) :
    ℚ × List String × List String :=
  match oc with
  | some contract =>
    let dp := downstreamPart contract.downstream_tables.length
    let cp := consumersPart contract.registered_consumers.length
    (dp.1 + cp.1, dp.2.1 ++ cp.2.1, dp.2.2 ++ cp.2.2)
  | none => (0, ["Create contract to track consumers and lineage"], [])

/-- The row-count block of the lineage scorer. -/
def rowCountPart (rowCount : Int) : ℚ × List String × List String :=
  if 100000 < rowCount then
    (15, [], ["Large dataset (high usage indicator)"])
  else if 1000 < rowCount then (10, [], [])
  else if 0 < rowCount then (5, [], [])
  else (0, ["No row count data available"], [])

/-- Embeds `TrustScoreEngine.calculate_lineage_usage_score(table, contracts)`. -/
def calculate_lineage_usage_score (table : TableRecord) (contracts : Contracts) :
    ℚ × List String × List String :=
  let lp := lineageContractPart (lookupContract contracts table.fullyQualifiedName)
  let rp := rowCountPart table.rowCount
  let updPart : ℚ := if table.updatedAt.truthy then 15 else 0
  let score := lp.1 + rp.1 + updPart
  (min score 100, lp.2.1 ++ rp.2.1, lp.2.2 ++ rp.2.2)

/-- The classification scan: the first tag whose `tagFQN` contains
`"Classification."`, taking `tag_fqn.split("Classification.")[-1].lower()`. -/
def resolveClassification (tags : List Tag) : Option String :=
  match tags.find? (fun tg => containsStr tg.tagFQN "Classification.") with
  | some tg => some (lowerStr (suffixAfterLast tg.tagFQN "Classification."))
  | none => none

/-- Python truthiness of the resolved classification (`None` and `""` falsy). -/
def classificationTruthy : Option String → Bool
  | some s => s != ""
  | none => false

/-- Embeds `any("PII" in str(col.get("tags", [])) for col in columns)`. -/
def column_has_pii (c : Column) : Bool := tagsMentionPII c.tags

/-- The classification block of the security scorer. -/
def classPart (classification : Option String) :
    ℚ × List String × List String :=
  match classification with
  | some cls =>
    if cls != "" then (30, [], [s!"Data classified as {cls}"])
    else (0, ["Assign data classification"], [])
  | none => (0, ["Assign data classification"], [])

/-- The PII-handling block of the security scorer. -/
def piiPart (has_pii : Bool) (oc : Option DataContract) :
    ℚ × List String × List String :=
  if has_pii then
    match oc with
    | some contract =>
      if contract.contains_pii then
        let retPart : ℚ × List String × List String :=
          if (contract.retention_days.getD 0) != 0 then
            (15, [], ["Retention policy defined"])
          else (0, ["Define retention policy for PII data"], [])
        (25 + retPart.1, retPart.2.1,
         ["PII properly flagged in contract"] ++ retPart.2.2)
      else (10, ["Flag PII in data contract"], [])
    | none => (0, ["Create contract to manage PII"], [])
  else (20, [], [])

/-- The owner-accountability block of the security scorer. -/
def securityOwnerPart (ownerName : String) : ℚ × List String × List String :=
  if ownerName != "" then (20, [], ["Data steward assigned"])
  else (0, ["Assign data steward"], [])

/-- The compliance-requirements block of the security scorer. -/
def complianceReqPart (oc : Option DataContract) :
    ℚ × List String × List String :=
  match oc with
  | some contract =>
    if !contract.compliance_requirements.isEmpty then
      (10, [], ["Compliance requirements documented"])
    else (0, ["Document compliance requirements"], [])
  | none => (0, [], [])

/-- Embeds `TrustScoreEngine.calculate_security_compliance_score(table, contracts)`. -/
def calculate_security_compliance_score (table : TableRecord)
    (contracts : Contracts) : ℚ × List String × List String :=
  let oc := lookupContract contracts table.fullyQualifiedName
  let kp := classPart (resolveClassification table.tags)
  let pp := piiPart (table.columns.any column_has_pii) oc
  let op := securityOwnerPart table.ownerName
  let cp := complianceReqPart oc
  let score := kp.1 + pp.1 + op.1 + cp.1
  (min score 100,
   kp.2.1 ++ pp.2.1 ++ op.2.1 ++ cp.2.1,
   kp.2.2 ++ pp.2.2 ++ op.2.2 ++ cp.2.2)

/-! ## TrustScoreEngine: weights, tiers, composite -/

/-- Embeds `WEIGHTS["data_quality"]`. -/
def WEIGHTS_data_quality : ℚ := 0.25

/-- Embeds `WEIGHTS["contract_availability"]`. -/
def WEIGHTS_contract_availability : ℚ := 0.20

/-- Embeds `WEIGHTS["freshness"]`. -/
def WEIGHTS_freshness : ℚ := 0.15

/-- Embeds `WEIGHTS["documentation"]`. -/
def WEIGHTS_documentation : ℚ := 0.15

/-- Embeds `WEIGHTS["lineage_usage"]`. -/
def WEIGHTS_lineage_usage : ℚ := 0.15

/-- Embeds `WEIGHTS["security_compliance"]`. -/
def WEIGHTS_security_compliance : ℚ := 0.10

/-- Embeds `TRUST_LEVELS`, in dict insertion (= iteration) order. -/
def TRUST_LEVELS : List ((ℚ × ℚ) × String) :=
  [((90, 100), "Platinum"),
   ((75, 90), "Gold"),
   ((60, 75), "Silver"),
   ((40, 60), "Bronze"),
   ((0, 40), "Needs Attention")]

/-- The tier-assignment loop of `calculate_trust_score`: first bin with
`min_score <= composite < max_score` wins, default `"Needs Attention"`. -/
def trust_level_of (composite : ℚ) : String :=
  match TRUST_LEVELS.find?
      (fun e => decide (e.1.1 ≤ composite) && decide (composite < e.1.2)) with
  | some e => e.2
  | none => "Needs Attention"

/-- The `DataTrustScore` dataclass. -/
structure DataTrustScore where
  fqn : String
  table_name : String
  database : String
  data_quality_score : ℚ
  contract_availability_score : ℚ
  freshness_score : ℚ
  documentation_score : ℚ
  lineage_usage_score : ℚ
  security_compliance_score : ℚ
  composite_trust_score : ℚ
  trust_level : String
  owner : String
  classification : Option String
  last_assessed : Int
  improvement_areas : List String
  strengths : List String
  deriving DecidableEq, Repr

/-- Embeds `TrustScoreEngine.calculate_trust_score(table, contracts)`. -/
def calculate_trust_score (table : TableRecord) (contracts : Contracts)
    (now_ms : Int) : DataTrustScore :=
  let fqn := table.fullyQualifiedName
  let q := calculate_data_quality_score table contracts
  let c := calculate_contract_availability_score table contracts
  let f := calculate_freshness_score table now_ms
  let d := calculate_documentation_score table contracts
  let l := calculate_lineage_usage_score table contracts
  let s := calculate_security_compliance_score table contracts
  let composite :=
    q.1 * WEIGHTS_data_quality +
    c.1 * WEIGHTS_contract_availability +
    f.1 * WEIGHTS_freshness +
    d.1 * WEIGHTS_documentation +
    l.1 * WEIGHTS_lineage_usage +
    s.1 * WEIGHTS_security_compliance
  let all_improvements := q.2.1 ++ c.2.1 ++ f.2.1 ++ d.2.1 ++ l.2.1 ++ s.2.1
  let all_strengths := q.2.2 ++ c.2.2 ++ f.2.2 ++ d.2.2 ++ l.2.2 ++ s.2.2
  { fqn := fqn
    table_name := table.name
    database := if fqn != "" then (fqn.splitOn ".").headD "" else "Unknown"
    data_quality_score := q.1
    contract_availability_score := c.1
    freshness_score := f.1
    documentation_score := d.1
    lineage_usage_score := l.1
    security_compliance_score := s.1
    composite_trust_score := composite
    trust_level := trust_level_of composite
    owner := table.ownerName
    classification := resolveClassification table.tags
    last_assessed := now_ms
    improvement_areas := all_improvements.take 5
    strengths := all_strengths.take 5 }

/-! ## Derived definitions used by the statements -/

/-- Rank of a trust tier, for stating monotonicity of the tier in the
composite score. -/
def tierRank : String → Nat
  | "Platinum" => 4
  | "Gold" => 3
  | "Silver" => 2
  | "Bronze" => 1
  | _ => 0

/-- Whether some `TRUST_LEVELS` bin matches a composite score (the loop
guard of the tier classifier; `false` means the fall-through default). -/
def someBinMatches (composite : ℚ) : Bool :=
  TRUST_LEVELS.any
    (fun e => decide (e.1.1 ≤ composite) && decide (composite < e.1.2))

/-- The quality-rules contribution inside `calculate_data_quality_score`. -/
def quality_rules_bonus (table : TableRecord) (contracts : Contracts) : ℚ :=
  match lookupContract contracts table.fullyQualifiedName with
  | some contract => if !contract.quality_rules.isEmpty then 30 else 0
  | none => 0

/-- The `dataType` recorded for column `n` in a contract's
`schema_definition` (the Python dict value). -/
def recordedDataType (sd : List (String × SchemaCol)) (n : String) :
    Option String :=
  (sd.find? (fun p => p.1 == n)).map (fun p => p.2.dataType)

/-! ## Concrete fixtures for witnesses and counterexamples -/

/-- A table with every scorer maxed out: typed, documented, PII-flagged and
classified columns, active fully-populated contract, fresh timestamp. -/
def perfectColumns : List Column :=
  [{ name := "order_id"
     dataType := "INT"
     description := "primary key id"
     tags := [{ tagFQN := "PII" }] },
   { name := "amount"
     dataType := "DECIMAL"
     description := "order amount"
     tags := [] }]

/-- The perfect table (see `perfectColumns`). -/
def perfectTable : TableRecord :=
  { fullyQualifiedName := "Deliver.raw.orders"
    name := "orders"
    columns := perfectColumns
    ownerName := "alice.data"
    tags := [{ tagFQN := "Classification.confidential" }]
    updatedAt := .ms 1000
    description := "This table contains Deliver data for raw layer"
    rowCount := 200000 }

/-- An active contract for `perfectTable` with every bonus populated. -/
def perfectContract : DataContract :=
  { id := "abc123abc123"
    table_fqn := "Deliver.raw.orders"
    status := "active"
    owner := "alice.data"
    last_modified := 0
    schema_definition :=
      [("order_id",
        { dataType := "INT"
          nullable := false
          description := "primary key id"
          isPII := true }),
       ("amount",
        { dataType := "DECIMAL"
          nullable := true
          description := "order amount"
          isPII := false })]
    quality_rules := ["null_check"]
    sla_freshness_hours := some 24
    classification := "confidential"
    business_purpose := "Supports Deliver business operations"
    registered_consumers := ["a (a@x)", "b (b@x)", "c (c@x)"]
    downstream_tables := ["d1", "d2", "d3", "d4", "d5", "d6"]
    retention_days := some 365
    contains_pii := true
    compliance_requirements := ["GDPR"]
    change_log := []
    approval_history := [] }

/-- A store holding only `perfectContract`. -/
def perfectStore : Contracts := [("Deliver.raw.orders", perfectContract)]

/-- A table with a PII-tagged COLUMN but no table-level tags at all. -/
def piiColumnTable : TableRecord :=
  { fullyQualifiedName := "Collect.raw.users"
    name := "users"
    columns :=
      [{ name := "email"
         dataType := "VARCHAR"
         description := ""
         tags := [{ tagFQN := "PII.Sensitive" }] }]
    ownerName := ""
    tags := []
    updatedAt := .absent
    description := ""
    rowCount := 0 }

/-- A table whose `updatedAt` is present but equal to `0` (the epoch). -/
def epochTable : TableRecord :=
  { fullyQualifiedName := "Deliver.raw.events"
    name := "events"
    columns := []
    ownerName := ""
    tags := []
    updatedAt := .ms 0
    description := ""
    rowCount := 0 }

/-- A minimal table for scenario populations. -/
def plainTable (fqn owner descr : String) : TableRecord :=
  { fullyQualifiedName := fqn
    name := fqn
    columns := []
    ownerName := owner
    tags := []
    updatedAt := .absent
    description := descr
    rowCount := 0 }

/-- Ten tables, four with owners, three with descriptions (the governance
metrics scenario). -/
def scenarioTables : List TableRecord :=
  [plainTable "db.s.t1" "alice" "described table one",
   plainTable "db.s.t2" "alice" "described table two",
   plainTable "db.s.t3" "bob" "described table three",
   plainTable "db.s.t4" "bob" "",
   plainTable "db.s.t5" "" "",
   plainTable "db.s.t6" "" "",
   plainTable "db.s.t7" "" "",
   plainTable "db.s.t8" "" "",
   plainTable "db.s.t9" "" "",
   plainTable "db.s.t10" "" ""]

/-- The schema-drift scenario table: `order_id INT, status INT, amount
DECIMAL` against a contract recording `order_id INT, status VARCHAR`. -/
def driftTable : TableRecord :=
  { fullyQualifiedName := "Deliver.raw.orders"
    name := "orders"
    columns :=
      [{ name := "order_id", dataType := "INT", description := "", tags := [] },
       { name := "status", dataType := "INT", description := "", tags := [] },
       { name := "amount", dataType := "DECIMAL", description := "", tags := [] }]
    ownerName := ""
    tags := []
    updatedAt := .absent
    description := ""
    rowCount := 0 }

/-- The contract for the schema-drift scenario. -/
def driftContract : DataContract :=
  { perfectContract with
    schema_definition :=
      [("order_id",
        { dataType := "INT", nullable := false, description := "", isPII := false }),
       ("status",
        { dataType := "VARCHAR", nullable := true, description := "", isPII := false })] }

/-- A store holding only `driftContract`. -/
def driftStore : Contracts := [("Deliver.raw.orders", driftContract)]

/-! ## Lemmas about the contract store -/

theorem lookup_map_update (store : Contracts) (fqn : String) (c' : DataContract)
    (h : (lookupContract store fqn).isSome) :
    lookupContract
      (store.map (fun p => if p.1 == fqn then (p.1, c') else p)) fqn =
      some c' := by
  induction store with
  | nil => simp [lookupContract] at h
  | cons p rest ih =>
    by_cases hp : p.1 = fqn
    · subst hp
      simp [lookupContract]
    · have hmap : (if (p.1 == fqn) = true then (p.1, c') else p) = p := by
        simp [hp]

      have h' : (lookupContract rest fqn).isSome := by
        simp only [lookupContract] at h ⊢
        rw [List.find?_cons_of_neg] at h
        · exact h
        · simp [hp]
      simp only [lookupContract, List.map_cons, hmap]
      rw [List.find?_cons_of_neg]
      · exact ih h'
      · simp [hp]

theorem lookup_map_update_ne (store : Contracts) (fqn g : String)
    (c' : DataContract) (hne : g ≠ fqn) :
    lookupContract
      (store.map (fun p => if p.1 == fqn then (p.1, c') else p)) g =
      lookupContract store g := by
  induction store with
  | nil => simp [lookupContract]
  | cons p rest ih =>
    by_cases hp : p.1 = fqn
    · have hmap : (if (p.1 == fqn) = true then (p.1, c') else p) = (p.1, c') := by
        simp [hp]
      simp only [lookupContract, List.map_cons, hmap]
      rw [List.find?_cons_of_neg]
      · rw [List.find?_cons_of_neg]
        · exact ih
        · simp [hp, Ne.symm hne]
      · simp [hp, Ne.symm hne]
    · have hmap : (if (p.1 == fqn) = true then (p.1, c') else p) = p := by
        simp [hp]
      by_cases hg : p.1 = g
      · simp only [lookupContract, List.map_cons, hmap]
        rw [List.find?_cons_of_pos]
        · rw [List.find?_cons_of_pos]
          simp [hg]
        · simp [hg]
      · simp only [lookupContract, List.map_cons, hmap]
        rw [List.find?_cons_of_neg]
        · rw [List.find?_cons_of_neg]
          · exact ih
          · simp [hg]
        · simp [hg]

/-- C6: `update_contract_status` returns `false` and leaves the store intact
when the FQN has no contract; otherwise it returns `true`, sets the status
(any string accepted), stamps `last_modified`, appends exactly one
`status_change` entry to `change_log`, appends an `approval_history` entry
iff the new status is `"active"`, and leaves every other FQN untouched. -/
theorem update_contract_status_spec (store : Contracts)
    (fqn new_status user notes : String) (now : Int) :
    ((lookupContract store fqn).isNone →
      update_contract_status store fqn new_status user notes now =
        (false, store)) ∧
    (∀ c, lookupContract store fqn = some c →
      (update_contract_status store fqn new_status user notes now).1 = true ∧
      (∀ g, g ≠ fqn →
        lookupContract
          (update_contract_status store fqn new_status user notes now).2 g =
          lookupContract store g) ∧
      ∃ c', lookupContract
              (update_contract_status store fqn new_status user notes now).2
              fqn = some c' ∧
        c'.status = new_status ∧
        c'.last_modified = now ∧
        c'.change_log = c.change_log ++
          [{ timestamp := now, action := "status_change", user := user,
             details := s!"{c.status} → {new_status}", notes := notes }] ∧
        (new_status = "active" →
          c'.approval_history = c.approval_history ++
            [{ timestamp := now, approver := user, notes := notes }]) ∧
        (new_status ≠ "active" →
          c'.approval_history = c.approval_history)) := by
  constructor
  · intro h
    rcases hl : lookupContract store fqn with _ | c
    · simp [update_contract_status, hl]
    · rw [hl] at h
      simp at h
  · intro c hc
    have hsome : (lookupContract store fqn).isSome = true := by
      simp [hc]
    refine ⟨?_, ?_, ?_⟩
    · simp [update_contract_status, hc]
    · intro g hg
      simp only [update_contract_status, hc]
      exact lookup_map_update_ne store fqn g _ hg
    · refine ⟨{ c with
          status := new_status
          last_modified := now
          change_log := c.change_log ++
            [{ timestamp := now, action := "status_change", user := user,
               details := s!"{c.status} → {new_status}", notes := notes }]
          approval_history :=
            if new_status == "active" then
              c.approval_history ++
                [{ timestamp := now, approver := user, notes := notes }]
            else c.approval_history }, ?_, rfl, rfl, rfl, ?_, ?_⟩
      · simp only [update_contract_status, hc]
        exact lookup_map_update store fqn _ hsome
      · intro ha
        simp [ha]
      · intro ha
        have ha' : (new_status == "active") = false := by simp [ha]
        simp [ha']

/-- Witness for the C6 theorem at concrete inputs: a missing FQN on the
empty store, and a present FQN on `perfectStore`. -/
theorem update_contract_status_spec_witness :
    update_contract_status [] "Deliver.raw.orders" "active" "u" "" 5 =
      (false, []) ∧
    (update_contract_status perfectStore "Deliver.raw.orders" "review" "u" "n"
      5).1 = true := by
  constructor
  · exact (update_contract_status_spec [] "Deliver.raw.orders" "active" "u" ""
      5).1 rfl
  · exact ((update_contract_status_spec perfectStore "Deliver.raw.orders"
      "review" "u" "n" 5).2 perfectContract rfl).1

/-- C7 counterexample: a table whose `updatedAt` is present, parseable and
equal to `0` (the epoch). The elapsed time is far beyond 168 hours, so the
claimed threshold mapping demands a score of 20, but the scorer returns 0
(the falsy-timestamp branch). -/
theorem freshness_epoch_counterexample :
    epochTable.updatedAt = UpdatedAt.ms 0 ∧
    168 < freshness_hours 0 1000000000000 ∧
    (calculate_freshness_score epochTable 1000000000000).1 = 0 := by
  refine ⟨rfl, by norm_num [freshness_hours], ?_⟩
  simp [calculate_freshness_score, epochTable]

/-- C7 (amended): the freshness score is 0 with an explanatory note when the
update timestamp is missing, unparseable, OR equal to 0; for a nonzero
timestamp it is mapped from the elapsed hours by the thresholds
1h/6h/24h/48h/168h. -/
theorem calculate_freshness_score_spec (table : TableRecord) (now_ms : Int) :
    (table.updatedAt = .absent ∨ table.updatedAt = .ms 0 →
      calculate_freshness_score table now_ms =
        (0, ["Enable update timestamp tracking"], [])) ∧
    (table.updatedAt = .invalid →
      calculate_freshness_score table now_ms =
        (0, ["Invalid update timestamp"], [])) ∧
    (∀ t : Int, table.updatedAt = .ms t → t ≠ 0 →
      (freshness_hours t now_ms ≤ 1 →
        (calculate_freshness_score table now_ms).1 = 100) ∧
      (1 < freshness_hours t now_ms → freshness_hours t now_ms ≤ 6 →
        (calculate_freshness_score table now_ms).1 = 95) ∧
      (6 < freshness_hours t now_ms → freshness_hours t now_ms ≤ 24 →
        (calculate_freshness_score table now_ms).1 = 85) ∧
      (24 < freshness_hours t now_ms → freshness_hours t now_ms ≤ 48 →
        (calculate_freshness_score table now_ms).1 = 70) ∧
      (48 < freshness_hours t now_ms → freshness_hours t now_ms ≤ 168 →
        (calculate_freshness_score table now_ms).1 = 50) ∧
      (168 < freshness_hours t now_ms →
        (calculate_freshness_score table now_ms).1 = 20)) := by
  refine ⟨?_, ?_, ?_⟩
  · rintro (h | h) <;> simp [calculate_freshness_score, h]
  · intro h
    simp [calculate_freshness_score, h]
  · intro t ht hne
    have hne' : (t == 0) = false := by simp [hne]
    refine ⟨?_, ?_, ?_, ?_, ?_, ?_⟩
    · intro h1
      simp [calculate_freshness_score, ht, hne', h1]
    · intro h1 h2
      simp [calculate_freshness_score, ht, hne', not_le.mpr h1, h2]
      norm_num
    · intro h1 h2
      simp [calculate_freshness_score, ht, hne',
        not_le.mpr (by linarith : (1:ℚ) < freshness_hours t now_ms),
        not_le.mpr h1, h2]
      norm_num
    · intro h1 h2
      simp [calculate_freshness_score, ht, hne',
        not_le.mpr (by linarith : (1:ℚ) < freshness_hours t now_ms),
        not_le.mpr (by linarith : (6:ℚ) < freshness_hours t now_ms),
        not_le.mpr h1, h2]
      norm_num
    · intro h1 h2
      simp [calculate_freshness_score, ht, hne',
        not_le.mpr (by linarith : (1:ℚ) < freshness_hours t now_ms),
        not_le.mpr (by linarith : (6:ℚ) < freshness_hours t now_ms),
        not_le.mpr (by linarith : (24:ℚ) < freshness_hours t now_ms),
        not_le.mpr h1, h2]
      norm_num
    · intro h1
      simp [calculate_freshness_score, ht, hne',
        not_le.mpr (by linarith : (1:ℚ) < freshness_hours t now_ms),
        not_le.mpr (by linarith : (6:ℚ) < freshness_hours t now_ms),
        not_le.mpr (by linarith : (24:ℚ) < freshness_hours t now_ms),
        not_le.mpr (by linarith : (48:ℚ) < freshness_hours t now_ms),
        not_le.mpr h1]
      norm_num

/-- Witness for the amended C7 theorem: a table with no update timestamp
scores 0 with the tracking note. -/
theorem calculate_freshness_score_spec_witness :
    calculate_freshness_score (plainTable "Deliver.raw.t" "" "") 0 =
      (0, ["Enable update timestamp tracking"], []) :=
  (calculate_freshness_score_spec (plainTable "Deliver.raw.t" "" "") 0).1
    (Or.inl rfl)

/-- C10: a present-but-zero `updatedAt` is treated like an absent one: score
0 with the "Enable update timestamp tracking" note, not the stale-data 20. -/
theorem freshness_zero_timestamp (table : TableRecord) (now_ms : Int)
    (h : table.updatedAt = .ms 0) :
    calculate_freshness_score table now_ms =
      (0, ["Enable update timestamp tracking"], []) := by
  simp [calculate_freshness_score, h]

/-- Witness for the C10 theorem at a concrete input. -/
theorem freshness_zero_timestamp_witness :
    calculate_freshness_score epochTable 123 =
      (0, ["Enable update timestamp tracking"], []) :=
  freshness_zero_timestamp epochTable 123 rfl

/-- C5 counterexample: `piiColumnTable` has a PII-tagged column, no
table-level tags and no contract, yet `identify_governance_gaps` leaves
`contains_pii_unclassified` empty — the source scans `str(table["tags"])`,
not the columns' tags. -/
theorem pii_gap_counterexample :
    piiColumnTable.columns.any column_has_pii = true ∧
    lookupContract [] piiColumnTable.fullyQualifiedName = none ∧
    (identify_governance_gaps [piiColumnTable] []).contains_pii_unclassified
      = [] := by
  refine ⟨by decide, rfl, ?_⟩
  decide

/-- C5 (amended): `contains_pii_unclassified` holds exactly the FQNs of
tables whose TABLE-LEVEL tag list mentions "PII" (substring of some
`tagFQN`) and whose FQN has no contract. -/
theorem pii_gap_characterization (tables : List TableRecord)
    (contracts : Contracts) (fqn : String) :
    fqn ∈ (identify_governance_gaps tables contracts).contains_pii_unclassified
      ↔ ∃ t ∈ tables, t.fullyQualifiedName = fqn ∧
          tagsMentionPII t.tags = true ∧
          lookupContract contracts fqn = none := by
  simp only [identify_governance_gaps, List.mem_map, List.mem_filter,
    Bool.and_eq_true, Option.isNone_iff_eq_none]
  constructor
  · rintro ⟨t, ⟨ht, hp, hn⟩, rfl⟩
    exact ⟨t, ht, rfl, hp, hn⟩
  · rintro ⟨t, ht, rfl, hp, hn⟩
    exact ⟨t, ⟨ht, hp, hn⟩, rfl⟩

/-- C9: the governance metrics are the stated counts over the table
population, the coverage percentages are `count/total × 100` (0 when the
population is empty), and the 10-table scenario yields
`total=10, owned=4, documented=3, contracted=0, compliant=0` with
`ownership_coverage = 40`. -/
theorem governance_metrics_spec :
    (∀ (tables : List TableRecord) (contracts : Contracts),
      (calculate_governance_metrics tables contracts).total_assets =
        tables.length ∧
      (calculate_governance_metrics tables contracts).owned_assets =
        (tables.filter (fun t => t.ownerName != "")).length ∧
      (calculate_governance_metrics tables contracts).documented_assets =
        (tables.filter (fun t => t.description != "")).length ∧
      (calculate_governance_metrics tables contracts).contracted_assets =
        contracts.length ∧
      (calculate_governance_metrics tables contracts).compliant_assets =
        (tables.filter (isCompliant contracts)).length ∧
      (calculate_governance_metrics tables contracts).ownership_coverage =
        (if tables.length = 0 then 0 else
          (((tables.filter (fun t => t.ownerName != "")).length : ℚ) /
            (tables.length : ℚ)) * 100) ∧
      (calculate_governance_metrics tables contracts).documentation_coverage =
        (if tables.length = 0 then 0 else
          (((tables.filter (fun t => t.description != "")).length : ℚ) /
            (tables.length : ℚ)) * 100) ∧
      (calculate_governance_metrics tables contracts).classification_coverage =
        (if tables.length = 0 then 0 else
          (((tables.filter (fun t => !t.tags.isEmpty)).length : ℚ) /
            (tables.length : ℚ)) * 100) ∧
      (calculate_governance_metrics tables contracts).contract_coverage =
        (if tables.length = 0 then 0 else
          ((contracts.length : ℚ) / (tables.length : ℚ)) * 100) ∧
      (calculate_governance_metrics tables contracts).compliance_rate =
        (if tables.length = 0 then 0 else
          (((tables.filter (isCompliant contracts)).length : ℚ) /
            (tables.length : ℚ)) * 100)) ∧
    calculate_governance_metrics scenarioTables [] =
      { total_assets := 10, owned_assets := 4, documented_assets := 3,
        classified_assets := 0, contracted_assets := 0,
        compliant_assets := 0 } ∧
    (calculate_governance_metrics scenarioTables []).ownership_coverage
      = 40 := by
  refine ⟨?_, by decide, ?_⟩
  · intro tables contracts
    refine ⟨rfl, rfl, rfl, rfl, rfl, ?_, ?_, ?_, ?_, ?_⟩ <;>
    · simp only [calculate_governance_metrics,
        GovernanceMetrics.ownership_coverage,
        GovernanceMetrics.documentation_coverage,
        GovernanceMetrics.classification_coverage,
        GovernanceMetrics.contract_coverage,
        GovernanceMetrics.compliance_rate]
      rcases Nat.eq_zero_or_pos tables.length with h | h
      · simp [h]
      · simp [h, Nat.pos_iff_ne_zero.mp h]
  · have h10 : calculate_governance_metrics scenarioTables [] =
        { total_assets := 10, owned_assets := 4, documented_assets := 3,
          classified_assets := 0, contracted_assets := 0,
          compliant_assets := 0 } := by decide
    rw [h10]
    norm_num [GovernanceMetrics.ownership_coverage]

/-- C8: for tables with at least one column, the data-quality score is the
base-plus-bonuses sum in which the type-coverage term is exactly
`(#columns with a known data type / #columns) × 30`, a known data type
being non-empty and different from `"UNKNOWN"`. -/
theorem data_quality_type_coverage (table : TableRecord)
    (contracts : Contracts) (h : table.columns ≠ []) :
    (calculate_data_quality_score table contracts).1 =
      40 + quality_rules_bonus table contracts +
      ((table.columns.filter knownDataType).length : ℚ) /
        ((table.columns.length : ℚ)) * 30 := by
  have hqb : 0 ≤ quality_rules_bonus table contracts ∧
      quality_rules_bonus table contracts ≤ 30 := by
    unfold quality_rules_bonus
    rcases lookupContract contracts table.fullyQualifiedName with _ | c
    · norm_num
    · dsimp only
      split_ifs <;> norm_num
  have hnc : (0:ℚ) < (table.columns.length : ℚ) := by
    exact_mod_cast List.length_pos.mpr h
  have hlen : ((table.columns.filter knownDataType).length : ℚ) ≤
      (table.columns.length : ℚ) := by
    exact_mod_cast List.length_filter_le _ _
  have hdiv : ((table.columns.filter knownDataType).length : ℚ) /
      (table.columns.length : ℚ) ≤ 1 := div_le_one_of_le₀ hlen (le_of_lt hnc)
  have hcov0 : (0:ℚ) ≤ ((table.columns.filter knownDataType).length : ℚ) /
      (table.columns.length : ℚ) * 30 := by positivity
  have hcov30 : ((table.columns.filter knownDataType).length : ℚ) /
      (table.columns.length : ℚ) * 30 ≤ 30 := by nlinarith [hdiv]
  have hne : table.columns.isEmpty = false := by
    simpa [List.isEmpty_iff] using h
  simp only [calculate_data_quality_score, quality_rules_bonus, hne,
    Bool.not_false, if_true]
  rcases hq : lookupContract contracts table.fullyQualifiedName with _ | c <;>
    simp only [hq] at hqb ⊢
  · by_cases ht : (table.columns.filter knownDataType).isEmpty
    · have h0 : ((table.columns.filter knownDataType).length : ℚ) = 0 := by
        simp [List.isEmpty_iff.mp ht]
      rw [if_neg (by simp [ht])]
      simp only [h0, zero_div, zero_mul]
      rw [min_eq_left (by norm_num)]
      norm_num
    · rw [if_pos (by simp [ht])]
      split_ifs <;>
      · rw [min_eq_left (by linarith)]
        ring
  · split_ifs with hr ht hcov ht <;>
    · first
      | (rw [min_eq_left (by linarith)]; ring)
      | (have h0 : ((table.columns.filter knownDataType).length : ℚ) = 0 := by
          simp_all [List.isEmpty_iff]
         simp only [h0, zero_div, zero_mul]
         rw [min_eq_left (by norm_num)]
         norm_num)

/-- Witness for the C8 theorem on a concrete three-column table. -/
theorem data_quality_type_coverage_witness :
    (calculate_data_quality_score driftTable []).1 =
      40 + quality_rules_bonus driftTable [] +
      ((driftTable.columns.filter knownDataType).length : ℚ) /
        ((driftTable.columns.length : ℚ)) * 30 :=
  data_quality_type_coverage driftTable [] (by decide)

/-! ## Bounds for the six component scorers -/

theorem data_quality_score_bounds (table : TableRecord)
    (contracts : Contracts) :
    0 ≤ (calculate_data_quality_score table contracts).1 ∧
    (calculate_data_quality_score table contracts).1 ≤ 100 := by
  simp only [calculate_data_quality_score]
  refine ⟨le_min ?_ (by norm_num), min_le_right _ _⟩
  rcases lookupContract contracts table.fullyQualifiedName with _ | c <;>
    dsimp only <;> split_ifs <;> positivity

theorem status_scores_bounds (s : String) :
    0 ≤ status_scores s ∧ status_scores s ≤ 35 := by
  unfold status_scores
  split_ifs <;> norm_num

theorem slaPart_bounds (c : DataContract) :
    0 ≤ (slaPart c).1 ∧ (slaPart c).1 ≤ 15 := by
  unfold slaPart
  split_ifs <;> norm_num

theorem schemaDefPart_bounds (c : DataContract) :
    0 ≤ (schemaDefPart c).1 ∧ (schemaDefPart c).1 ≤ 10 := by
  unfold schemaDefPart
  split_ifs <;> norm_num

theorem contract_availability_score_bounds (table : TableRecord)
    (contracts : Contracts) :
    0 ≤ (calculate_contract_availability_score table contracts).1 ∧
    (calculate_contract_availability_score table contracts).1 ≤ 100 := by
  simp only [calculate_contract_availability_score]
  rcases lookupContract contracts table.fullyQualifiedName with _ | c
  · norm_num
  · dsimp only
    obtain ⟨h1, h2⟩ := status_scores_bounds c.status
    obtain ⟨h3, h4⟩ := slaPart_bounds c
    obtain ⟨h5, h6⟩ := schemaDefPart_bounds c
    exact ⟨le_min (by linarith) (by norm_num), min_le_right _ _⟩

theorem freshness_score_bounds (table : TableRecord) (now_ms : Int) :
    0 ≤ (calculate_freshness_score table now_ms).1 ∧
    (calculate_freshness_score table now_ms).1 ≤ 100 := by
  simp only [calculate_freshness_score]
  rcases table.updatedAt with _ | _ | t
  · norm_num
  · norm_num
  · dsimp only
    split_ifs <;> norm_num

theorem descPart_bounds (d : String) :
    0 ≤ (descPart d).1 ∧ (descPart d).1 ≤ 30 := by
  unfold descPart
  split_ifs <;> norm_num

theorem docColumnsPart_bounds (columns : List Column) :
    0 ≤ (docColumnsPart columns).1 ∧ (docColumnsPart columns).1 ≤ 30 := by
  unfold docColumnsPart
  dsimp only
  rcases Nat.eq_zero_or_pos columns.length with h | h
  · rw [if_neg (by simp [List.isEmpty_iff, List.length_eq_zero.mp h])]
    norm_num
  · have hnc : (0:ℚ) < (columns.length : ℚ) := by exact_mod_cast h
    have hlen : (((columns.filter (fun c => c.description != "")).length : ℚ)) ≤
        (columns.length : ℚ) := by
      exact_mod_cast List.length_filter_le _ _
    have hdiv : (((columns.filter (fun c => c.description != "")).length : ℚ)) /
        (columns.length : ℚ) ≤ 1 := div_le_one_of_le₀ hlen (le_of_lt hnc)
    have hcov0 : (0:ℚ) ≤
        (((columns.filter (fun c => c.description != "")).length : ℚ)) /
          (columns.length : ℚ) * 30 := by positivity
    have hcov30 :
        (((columns.filter (fun c => c.description != "")).length : ℚ)) /
          (columns.length : ℚ) * 30 ≤ 30 := by nlinarith [hdiv]
    split_ifs <;> constructor <;> first | linarith | norm_num

theorem docTagsPart_bounds (tags : List Tag) :
    0 ≤ (docTagsPart tags).1 ∧ (docTagsPart tags).1 ≤ 15 := by
  unfold docTagsPart
  split_ifs <;> norm_num

theorem purposePart_bounds (oc : Option DataContract) :
    0 ≤ (purposePart oc).1 ∧ (purposePart oc).1 ≤ 15 := by
  unfold purposePart
  rcases oc with _ | c
  · norm_num
  · dsimp only
    split_ifs <;> norm_num

theorem docOwnerPart_bounds (o : String) :
    0 ≤ (docOwnerPart o).1 ∧ (docOwnerPart o).1 ≤ 10 := by
  unfold docOwnerPart
  split_ifs <;> norm_num

theorem documentation_score_bounds (table : TableRecord)
    (contracts : Contracts) :
    0 ≤ (calculate_documentation_score table contracts).1 ∧
    (calculate_documentation_score table contracts).1 ≤ 100 := by
  simp only [calculate_documentation_score]
  obtain ⟨h1, h2⟩ := descPart_bounds table.description
  obtain ⟨h3, h4⟩ := docColumnsPart_bounds table.columns
  obtain ⟨h5, h6⟩ := docTagsPart_bounds table.tags
  obtain ⟨h7, h8⟩ :=
    purposePart_bounds (lookupContract contracts table.fullyQualifiedName)
  obtain ⟨h9, h10⟩ := docOwnerPart_bounds table.ownerName
  exact ⟨le_min (by linarith) (by norm_num), min_le_right _ _⟩

theorem downstreamPart_bounds (n : Nat) :
    0 ≤ (downstreamPart n).1 ∧ (downstreamPart n).1 ≤ 35 := by
  unfold downstreamPart
  split_ifs <;> norm_num

theorem consumersPart_bounds (n : Nat) :
    0 ≤ (consumersPart n).1 ∧ (consumersPart n).1 ≤ 35 := by
  unfold consumersPart
  split_ifs <;> norm_num

theorem lineageContractPart_bounds (oc : Option DataContract) :
    0 ≤ (lineageContractPart oc).1 ∧ (lineageContractPart oc).1 ≤ 70 := by
  unfold lineageContractPart
  rcases oc with _ | c
  · norm_num
  · dsimp only
    obtain ⟨h1, h2⟩ := downstreamPart_bounds c.downstream_tables.length
    obtain ⟨h3, h4⟩ := consumersPart_bounds c.registered_consumers.length
    exact ⟨by linarith, by linarith⟩

theorem rowCountPart_bounds (n : Int) :
    0 ≤ (rowCountPart n).1 ∧ (rowCountPart n).1 ≤ 15 := by
  unfold rowCountPart
  split_ifs <;> norm_num

theorem lineage_usage_score_bounds (table : TableRecord)
    (contracts : Contracts) :
    0 ≤ (calculate_lineage_usage_score table contracts).1 ∧
    (calculate_lineage_usage_score table contracts).1 ≤ 100 := by
  simp only [calculate_lineage_usage_score]
  obtain ⟨h1, h2⟩ :=
    lineageContractPart_bounds (lookupContract contracts table.fullyQualifiedName)
  obtain ⟨h3, h4⟩ := rowCountPart_bounds table.rowCount
  have h5 : 0 ≤ (if table.updatedAt.truthy then (15:ℚ) else 0) ∧
      (if table.updatedAt.truthy then (15:ℚ) else 0) ≤ 15 := by
    split_ifs <;> norm_num
  exact ⟨le_min (by linarith [h5.1]) (by norm_num), min_le_right _ _⟩

theorem classPart_bounds (c : Option String) :
    0 ≤ (classPart c).1 ∧ (classPart c).1 ≤ 30 := by
  unfold classPart
  rcases c with _ | s
  · norm_num
  · dsimp only
    split_ifs <;> norm_num

theorem piiPart_bounds (b : Bool) (oc : Option DataContract) :
    0 ≤ (piiPart b oc).1 ∧ (piiPart b oc).1 ≤ 40 := by
  unfold piiPart
  rcases b with _ | _
  · norm_num
  · rcases oc with _ | c
    · norm_num
    · dsimp only
      split_ifs <;> norm_num

theorem securityOwnerPart_bounds (o : String) :
    0 ≤ (securityOwnerPart o).1 ∧ (securityOwnerPart o).1 ≤ 20 := by
  unfold securityOwnerPart
  split_ifs <;> norm_num

theorem complianceReqPart_bounds (oc : Option DataContract) :
    0 ≤ (complianceReqPart oc).1 ∧ (complianceReqPart oc).1 ≤ 10 := by
  unfold complianceReqPart
  rcases oc with _ | c
  · norm_num
  · dsimp only
    split_ifs <;> norm_num

theorem security_compliance_score_bounds (table : TableRecord)
    (contracts : Contracts) :
    0 ≤ (calculate_security_compliance_score table contracts).1 ∧
    (calculate_security_compliance_score table contracts).1 ≤ 100 := by
  simp only [calculate_security_compliance_score]
  obtain ⟨h1, h2⟩ := classPart_bounds (resolveClassification table.tags)
  obtain ⟨h3, h4⟩ := piiPart_bounds (table.columns.any column_has_pii)
    (lookupContract contracts table.fullyQualifiedName)
  obtain ⟨h5, h6⟩ := securityOwnerPart_bounds table.ownerName
  obtain ⟨h7, h8⟩ := complianceReqPart_bounds
    (lookupContract contracts table.fullyQualifiedName)
  exact ⟨le_min (by linarith) (by norm_num), min_le_right _ _⟩

/-- C1: the composite trust score is exactly the weighted sum of the six
component scores (weights 0.25/0.20/0.15/0.15/0.15/0.10) and lies in
`[0, 100]`. -/
theorem composite_trust_score_spec (table : TableRecord)
    (contracts : Contracts) (now_ms : Int) :
    (calculate_trust_score table contracts now_ms).composite_trust_score =
      (calculate_data_quality_score table contracts).1 *
        WEIGHTS_data_quality +
      (calculate_contract_availability_score table contracts).1 *
        WEIGHTS_contract_availability +
      (calculate_freshness_score table now_ms).1 * WEIGHTS_freshness +
      (calculate_documentation_score table contracts).1 *
        WEIGHTS_documentation +
      (calculate_lineage_usage_score table contracts).1 *
        WEIGHTS_lineage_usage +
      (calculate_security_compliance_score table contracts).1 *
        WEIGHTS_security_compliance ∧
    0 ≤ (calculate_trust_score table contracts now_ms).composite_trust_score ∧
    (calculate_trust_score table contracts now_ms).composite_trust_score
      ≤ 100 := by
  obtain ⟨hq0, hq1⟩ := data_quality_score_bounds table contracts
  obtain ⟨hc0, hc1⟩ := contract_availability_score_bounds table contracts
  obtain ⟨hf0, hf1⟩ := freshness_score_bounds table now_ms
  obtain ⟨hd0, hd1⟩ := documentation_score_bounds table contracts
  obtain ⟨hl0, hl1⟩ := lineage_usage_score_bounds table contracts
  obtain ⟨hs0, hs1⟩ := security_compliance_score_bounds table contracts
  have he : (calculate_trust_score table contracts now_ms).composite_trust_score
      = (calculate_data_quality_score table contracts).1 *
          WEIGHTS_data_quality +
        (calculate_contract_availability_score table contracts).1 *
          WEIGHTS_contract_availability +
        (calculate_freshness_score table now_ms).1 * WEIGHTS_freshness +
        (calculate_documentation_score table contracts).1 *
          WEIGHTS_documentation +
        (calculate_lineage_usage_score table contracts).1 *
          WEIGHTS_lineage_usage +
        (calculate_security_compliance_score table contracts).1 *
          WEIGHTS_security_compliance := rfl
  refine ⟨he, ?_, ?_⟩ <;>
  · rw [he]
    simp only [WEIGHTS_data_quality, WEIGHTS_contract_availability,
      WEIGHTS_freshness, WEIGHTS_documentation, WEIGHTS_lineage_usage,
      WEIGHTS_security_compliance]
    norm_num
    linarith

/-! ## Tier classification -/

theorem trust_level_of_platinum {c : ℚ} (h1 : 90 ≤ c) (h2 : c < 100) :
    trust_level_of c = "Platinum" := by
  simp [trust_level_of, TRUST_LEVELS, List.find?, h1, h2]

theorem trust_level_of_gold {c : ℚ} (h1 : 75 ≤ c) (h2 : c < 90) :
    trust_level_of c = "Gold" := by
  have h3 : ¬ (90:ℚ) ≤ c := by linarith
  have h4 : c < 100 := by linarith
  simp [trust_level_of, TRUST_LEVELS, List.find?, h1, h2, h3, h4]

theorem trust_level_of_silver {c : ℚ} (h1 : 60 ≤ c) (h2 : c < 75) :
    trust_level_of c = "Silver" := by
  have h3 : ¬ (90:ℚ) ≤ c := by linarith
  have h4 : ¬ (75:ℚ) ≤ c := by linarith
  have h5 : c < 100 := by linarith
  have h6 : c < 90 := by linarith
  simp [trust_level_of, TRUST_LEVELS, List.find?, h1, h2, h3, h4, h5, h6]

theorem trust_level_of_bronze {c : ℚ} (h1 : 40 ≤ c) (h2 : c < 60) :
    trust_level_of c = "Bronze" := by
  have h3 : ¬ (90:ℚ) ≤ c := by linarith
  have h4 : ¬ (75:ℚ) ≤ c := by linarith
  have h5 : ¬ (60:ℚ) ≤ c := by linarith
  have h6 : c < 100 := by linarith
  have h7 : c < 90 := by linarith
  have h8 : c < 75 := by linarith
  simp [trust_level_of, TRUST_LEVELS, List.find?, h1, h2, h3, h4, h5, h6, h7,
    h8]

theorem trust_level_of_low {c : ℚ} (h1 : 0 ≤ c) (h2 : c < 40) :
    trust_level_of c = "Needs Attention" := by
  have h3 : ¬ (90:ℚ) ≤ c := by linarith
  have h4 : ¬ (75:ℚ) ≤ c := by linarith
  have h5 : ¬ (60:ℚ) ≤ c := by linarith
  have h6 : ¬ (40:ℚ) ≤ c := by linarith
  have h7 : c < 100 := by linarith
  have h8 : c < 90 := by linarith
  have h9 : c < 75 := by linarith
  have h10 : c < 60 := by linarith
  simp [trust_level_of, TRUST_LEVELS, List.find?, h1, h2, h3, h4, h5, h6, h7,
    h8, h9, h10]

theorem tierRank_trust_level (c : ℚ) (h0 : 0 ≤ c) (h1 : c < 100) :
    tierRank (trust_level_of c) =
      if 90 ≤ c then 4 else if 75 ≤ c then 3 else if 60 ≤ c then 2
      else if 40 ≤ c then 1 else 0 := by
  split_ifs with h90 h75 h60 h40
  · rw [trust_level_of_platinum h90 h1]; rfl
  · rw [trust_level_of_gold h75 (not_le.mp h90)]; rfl
  · rw [trust_level_of_silver h60 (not_le.mp h75)]; rfl
  · rw [trust_level_of_bronze h40 (not_le.mp h60)]; rfl
  · rw [trust_level_of_low h0 (not_le.mp h40)]; rfl

/-- C2 (amended): on composites in `[0, 100)` the assigned tier is a
non-decreasing function of the composite under the bin boundaries
{40, 60, 75, 90}, and a composite of exactly 75.0 is assigned Gold, not
Silver. (At composite = 100 exactly — reachable — monotonicity fails, see
the counterexample.) -/
theorem trust_level_monotone_and_75_gold :
    (∀ x y : ℚ, 0 ≤ x → x ≤ y → y < 100 →
      tierRank (trust_level_of x) ≤ tierRank (trust_level_of y)) ∧
    trust_level_of 75 = "Gold" := by
  constructor
  · intro x y hx hxy hy
    have hx' : x < 100 := lt_of_le_of_lt hxy hy
    have hy' : 0 ≤ y := le_trans hx hxy
    rw [tierRank_trust_level x hx hx', tierRank_trust_level y hy' hy]
    split_ifs <;> first | omega | (exfalso; linarith)
  · exact trust_level_of_gold (by norm_num) (by norm_num)

/-- Witness for the C2 theorem at concrete composites 50 and 80. -/
theorem trust_level_monotone_witness :
    tierRank (trust_level_of 50) ≤ tierRank (trust_level_of 80) :=
  trust_level_monotone_and_75_gold.1 50 80 (by norm_num) (by norm_num)
    (by norm_num)

/-- C2 counterexample: 99 and 100 both lie in [0,100] with 99 ≤ 100, yet the
tier drops from Platinum to the fall-through "Needs Attention". -/
theorem trust_level_not_monotone_at_100 :
    (0:ℚ) ≤ 99 ∧ (99:ℚ) ≤ 100 ∧ (100:ℚ) ≤ 100 ∧
    trust_level_of 99 = "Platinum" ∧
    trust_level_of 100 = "Needs Attention" ∧
    tierRank (trust_level_of 100) < tierRank (trust_level_of 99) := by
  have h99 : trust_level_of 99 = "Platinum" :=
    trust_level_of_platinum (by norm_num) (by norm_num)
  have h100 : trust_level_of 100 = "Needs Attention" := by
    norm_num [trust_level_of, TRUST_LEVELS, List.find?]
  refine ⟨by norm_num, by norm_num, by norm_num, h99, h100, ?_⟩
  rw [h99, h100]
  decide

/-- C3 (amended): every composite in `[0, 100)` matches one of the five
half-open bins, and for composites in `[0, 100]` the fall-through default
fires exactly at composite = 100 — which the engine can produce (see the
counterexample). -/
theorem bins_cover_and_default_only_at_100 :
    (∀ c : ℚ, 0 ≤ c → c < 100 → someBinMatches c = true) ∧
    (∀ c : ℚ, 0 ≤ c → c ≤ 100 → someBinMatches c = false → c = 100) := by
  have hcov : ∀ c : ℚ, 0 ≤ c → c < 100 → someBinMatches c = true := by
    intro c h0 h1
    simp only [someBinMatches, TRUST_LEVELS, List.any_cons, List.any_nil,
      Bool.or_eq_true, Bool.and_eq_true, decide_eq_true_eq, Bool.or_false]
    rcases lt_or_le c 40 with h40 | h40
    · exact Or.inr (Or.inr (Or.inr (Or.inr ⟨h0, h40⟩)))
    rcases lt_or_le c 60 with h60 | h60
    · exact Or.inr (Or.inr (Or.inr (Or.inl ⟨h40, h60⟩)))
    rcases lt_or_le c 75 with h75 | h75
    · exact Or.inr (Or.inr (Or.inl ⟨h60, h75⟩))
    rcases lt_or_le c 90 with h90 | h90
    · exact Or.inr (Or.inl ⟨h75, h90⟩)
    · exact Or.inl ⟨h90, h1⟩
  refine ⟨hcov, ?_⟩
  intro c h0 h1 hf
  by_contra hne
  rw [hcov c h0 (lt_of_le_of_ne h1 hne)] at hf
  exact Bool.noConfusion hf

/-- Witness for the C3 theorem at the concrete composite 50. -/
theorem bins_cover_witness : someBinMatches 50 = true :=
  bins_cover_and_default_only_at_100.1 50 (by norm_num) (by norm_num)

/-- C3 counterexample: the engine assigns `perfectTable` (all six component
scores 100) the composite 100; no `TRUST_LEVELS` bin matches 100, so the
fall-through default "Needs Attention" is the assigned tier — the default is
reachable for a composite the engine actually produces. -/
theorem default_tier_reachable :
    (calculate_trust_score perfectTable perfectStore
      1000).composite_trust_score = 100 ∧
    someBinMatches
      ((calculate_trust_score perfectTable perfectStore
        1000).composite_trust_score) = false ∧
    (calculate_trust_score perfectTable perfectStore 1000).trust_level =
      "Needs Attention" := by
  have hq : (calculate_data_quality_score perfectTable perfectStore).1
      = 100 := by
    simp +decide [calculate_data_quality_score, knownDataType, lookupContract,
      perfectStore, perfectTable, perfectContract, perfectColumns]
    norm_num
  have hc : (calculate_contract_availability_score perfectTable
      perfectStore).1 = 100 := by
    simp +decide [calculate_contract_availability_score, status_scores,
      slaPart, schemaDefPart, statusAdvice, lookupContract, perfectStore,
      perfectTable, perfectContract]
    norm_num
  have hf : (calculate_freshness_score perfectTable 1000).1 = 100 := by
    simp +decide [calculate_freshness_score, freshness_hours, perfectTable]
  have hd : (calculate_documentation_score perfectTable perfectStore).1
      = 100 := by
    simp +decide [calculate_documentation_score, descPart, docColumnsPart,
      docTagsPart, purposePart, docOwnerPart, lookupContract, perfectStore,
      perfectTable, perfectContract, perfectColumns]
    norm_num
  have hl : (calculate_lineage_usage_score perfectTable perfectStore).1
      = 100 := by
    simp +decide [calculate_lineage_usage_score, lineageContractPart,
      downstreamPart, consumersPart, rowCountPart, UpdatedAt.truthy,
      lookupContract, perfectStore, perfectTable, perfectContract]
    norm_num
  have hs : (calculate_security_compliance_score perfectTable
      perfectStore).1 = 100 := by
    simp +decide [calculate_security_compliance_score, classPart, piiPart,
      securityOwnerPart, complianceReqPart, resolveClassification,
      containsStr, containsSubL, isPrefixOfL, suffixAfterLast, lowerStr,
      column_has_pii, tagsMentionPII, lookupContract, perfectStore,
      perfectTable, perfectContract, perfectColumns]
    norm_num
  have he : (calculate_trust_score perfectTable perfectStore
      1000).composite_trust_score =
      (calculate_data_quality_score perfectTable perfectStore).1 *
        WEIGHTS_data_quality +
      (calculate_contract_availability_score perfectTable perfectStore).1 *
        WEIGHTS_contract_availability +
      (calculate_freshness_score perfectTable 1000).1 * WEIGHTS_freshness +
      (calculate_documentation_score perfectTable perfectStore).1 *
        WEIGHTS_documentation +
      (calculate_lineage_usage_score perfectTable perfectStore).1 *
        WEIGHTS_lineage_usage +
      (calculate_security_compliance_score perfectTable perfectStore).1 *
        WEIGHTS_security_compliance := rfl
  have hcomp : (calculate_trust_score perfectTable perfectStore
      1000).composite_trust_score = 100 := by
    rw [he, hq, hc, hf, hd, hl, hs]
    norm_num [WEIGHTS_data_quality, WEIGHTS_contract_availability,
      WEIGHTS_freshness, WEIGHTS_documentation, WEIGHTS_lineage_usage,
      WEIGHTS_security_compliance]
  have ht : (calculate_trust_score perfectTable perfectStore 1000).trust_level
      = trust_level_of ((calculate_trust_score perfectTable perfectStore
          1000).composite_trust_score) := rfl
  refine ⟨hcomp, ?_, ?_⟩
  · rw [hcomp]
    norm_num [someBinMatches, TRUST_LEVELS]
  · rw [ht, hcomp]
    norm_num [trust_level_of, TRUST_LEVELS, List.find?]

theorem mem_dedupKeys {n : String} : ∀ {l : List String}, n ∈ dedupKeys l ↔ n ∈ l := by
  intro l
  induction l with
  | nil => simp [dedupKeys]
  | cons a l ih =>
    simp only [dedupKeys, List.mem_cons, List.mem_filter]
    constructor
    · rintro (rfl | ⟨h, _⟩)
      · exact Or.inl rfl
      · exact Or.inr (ih.mp h)
    · rintro (rfl | h)
      · exact Or.inl rfl
      · by_cases hna : n = a
        · exact Or.inl hna
        · exact Or.inr ⟨ih.mpr h, by simp [hna]⟩

theorem nodup_dedupKeys : ∀ (l : List String), (dedupKeys l).Nodup := by
  intro l
  induction l with
  | nil => simp [dedupKeys]
  | cons a l ih =>
    simp only [dedupKeys, List.nodup_cons]
    constructor
    · intro hmem
      rcases List.mem_filter.mp hmem with ⟨_, hne⟩
      simp at hne
    · exact ih.filter _

theorem find_key_eq {sd : List (String × SchemaCol)}
    (hk : (sd.map Prod.fst).Nodup) {p : String × SchemaCol} (hp : p ∈ sd) :
    sd.find? (fun q => q.1 == p.1) = some p := by
  induction sd with
  | nil => cases hp
  | cons q rest ih =>
    simp only [List.map_cons, List.nodup_cons] at hk
    rcases List.mem_cons.mp hp with rfl | hp'
    · rw [List.find?_cons_of_pos]
      simp
    · have hqn : ¬ (q.1 == p.1) = true := by
        simp only [beq_iff_eq]
        intro he
        exact hk.1 (he ▸ List.mem_map.mpr ⟨p, hp', rfl⟩)
      rw [List.find?_cons_of_neg]
      · exact ih hk.2 hp'
      · exact hqn

theorem recordedDataType_of_mem {sd : List (String × SchemaCol)}
    (hk : (sd.map Prod.fst).Nodup) {p : String × SchemaCol} (hp : p ∈ sd) :
    recordedDataType sd p.1 = some p.2.dataType := by
  simp [recordedDataType, find_key_eq hk hp]



theorem map_column_name_map {α : Type} (f : α → SchemaChange)
    (g : α → String) (hfg : ∀ a, (f a).column_name = g a) (l : List α) :
    (l.map f).map (fun ch => ch.column_name) = l.map g := by
  rw [List.map_map]
  exact List.map_congr_left (fun a _ => hfg a)

/-- C4: with a contract stored for the FQN, `detect_schema_changes` emits
all removals (breaking), then all additions (non-breaking), then all type
changes (breaking, exact case-sensitive string comparison of data types); no
column name appears in more than one emitted change, and every name in the
union of contract schema keys and table column names is classified into
exactly one of removed / added / type-changed / unchanged. -/
theorem detect_schema_changes_partition
    (store : Contracts) (fqn : String) (table : TableRecord) (now : Int)
    (contract : DataContract)
    (hc : lookupContract store fqn = some contract)
    (hk : (contract.schema_definition.map Prod.fst).Nodup) :
    ∃ removed added type_changed,
      detect_schema_changes store fqn table now =
        removed ++ added ++ type_changed ∧
      (∀ ch ∈ removed, ch.change_type = "removed" ∧ ch.severity = "breaking" ∧
        ch.requires_approval = true) ∧
      (∀ ch ∈ added, ch.change_type = "added" ∧ ch.severity = "non-breaking" ∧
        ch.requires_approval = false) ∧
      (∀ ch ∈ type_changed, ch.change_type = "type_changed" ∧
        ch.severity = "breaking" ∧ ch.requires_approval = true) ∧
      ((detect_schema_changes store fqn table now).map
        (fun ch => ch.column_name)).Nodup ∧
      (∀ n : String,
        n ∈ contract.schema_definition.map Prod.fst ∨
          n ∈ table.columns.map Column.name →
        ((∃ ch ∈ detect_schema_changes store fqn table now,
            ch.column_name = n ∧ ch.change_type = "removed") ↔
          n ∈ contract.schema_definition.map Prod.fst ∧
            n ∉ table.columns.map Column.name) ∧
        ((∃ ch ∈ detect_schema_changes store fqn table now,
            ch.column_name = n ∧ ch.change_type = "added") ↔
          n ∈ table.columns.map Column.name ∧
            n ∉ contract.schema_definition.map Prod.fst) ∧
        ((∃ ch ∈ detect_schema_changes store fqn table now,
            ch.column_name = n ∧ ch.change_type = "type_changed") ↔
          n ∈ contract.schema_definition.map Prod.fst ∧
            n ∈ table.columns.map Column.name ∧
            recordedDataType contract.schema_definition n ≠
              some (currentDataType table.columns n)) ∧
        ((∀ ch ∈ detect_schema_changes store fqn table now,
            ch.column_name ≠ n) ↔
          n ∈ contract.schema_definition.map Prod.fst ∧
            n ∈ table.columns.map Column.name ∧
            recordedDataType contract.schema_definition n =
              some (currentDataType table.columns n))) := by
  classical
  have hL : detect_schema_changes store fqn table now =
      ((contract.schema_definition.filter (fun p =>
          !((table.columns.map Column.name).contains p.1))).map (fun p =>
        { table_fqn := fqn, change_type := "removed", column_name := p.1,
          old_value := some p.2.dataType, new_value := none,
          detected_at := now, severity := "breaking", impact_level := "high",
          requires_approval := true })) ++
      (((dedupKeys (table.columns.map Column.name)).filter (fun n =>
          !((contract.schema_definition.map Prod.fst).contains n))).map
        (fun n =>
        { table_fqn := fqn, change_type := "added", column_name := n,
          old_value := none,
          new_value := some (currentDataType table.columns n),
          detected_at := now, severity := "non-breaking",
          impact_level := "low", requires_approval := false })) ++
      ((contract.schema_definition.filter (fun p =>
          (table.columns.map Column.name).contains p.1 &&
          p.2.dataType != currentDataType table.columns p.1)).map (fun p =>
        { table_fqn := fqn, change_type := "type_changed",
          column_name := p.1, old_value := some p.2.dataType,
          new_value := some (currentDataType table.columns p.1),
          detected_at := now, severity := "breaking", impact_level := "high",
          requires_approval := true })) := by
    simp only [detect_schema_changes, hc]
  have hRmem : ∀ n : String,
      (∃ ch ∈ (contract.schema_definition.filter (fun p =>
          !((table.columns.map Column.name).contains p.1))).map (fun p =>
        ({ table_fqn := fqn, change_type := "removed", column_name := p.1,
           old_value := some p.2.dataType, new_value := none,
           detected_at := now, severity := "breaking", impact_level := "high",
           requires_approval := true } : SchemaChange)),
        ch.column_name = n) ↔
        (n ∈ contract.schema_definition.map Prod.fst ∧
          n ∉ table.columns.map Column.name) := by
    intro n
    simp only [List.mem_map, List.mem_filter, List.contains,
      Bool.not_eq_true', List.elem_eq_mem, decide_eq_false_iff_not,
      exists_exists_and_eq_and]
    constructor
    · rintro ⟨p, ⟨hp, hnot⟩, rfl⟩
      exact ⟨⟨p, hp, rfl⟩, hnot⟩
    · rintro ⟨⟨p, hp, rfl⟩, hnot⟩
      exact ⟨p, ⟨hp, hnot⟩, rfl⟩
  have hAmem : ∀ n : String,
      (∃ ch ∈ ((dedupKeys (table.columns.map Column.name)).filter (fun m =>
          !((contract.schema_definition.map Prod.fst).contains m))).map
        (fun m =>
        ({ table_fqn := fqn, change_type := "added", column_name := m,
           old_value := none,
           new_value := some (currentDataType table.columns m),
           detected_at := now, severity := "non-breaking",
           impact_level := "low", requires_approval := false } :
          SchemaChange)),
        ch.column_name = n) ↔
        (n ∈ table.columns.map Column.name ∧
          n ∉ contract.schema_definition.map Prod.fst) := by
    intro n
    simp only [List.mem_map, List.mem_filter, List.contains,
      Bool.not_eq_true', List.elem_eq_mem, decide_eq_false_iff_not,
      exists_exists_and_eq_and]
    constructor
    · rintro ⟨m, ⟨hm, hnot⟩, rfl⟩
      exact ⟨List.mem_map.mp (mem_dedupKeys.mp hm), hnot⟩
    · rintro ⟨hm, hnot⟩
      exact ⟨n, ⟨mem_dedupKeys.mpr (List.mem_map.mpr hm), hnot⟩, rfl⟩
  have hTmem : ∀ n : String,
      (∃ ch ∈ (contract.schema_definition.filter (fun p =>
          (table.columns.map Column.name).contains p.1 &&
          p.2.dataType != currentDataType table.columns p.1)).map (fun p =>
        ({ table_fqn := fqn, change_type := "type_changed",
           column_name := p.1, old_value := some p.2.dataType,
           new_value := some (currentDataType table.columns p.1),
           detected_at := now, severity := "breaking", impact_level := "high",
           requires_approval := true } : SchemaChange)),
        ch.column_name = n) ↔
        (n ∈ contract.schema_definition.map Prod.fst ∧
          n ∈ table.columns.map Column.name ∧
          recordedDataType contract.schema_definition n ≠
            some (currentDataType table.columns n)) := by
    intro n
    simp only [List.mem_map, List.mem_filter, List.contains,
      Bool.and_eq_true, List.elem_eq_mem, decide_eq_true_eq, bne_iff_ne,
      exists_exists_and_eq_and]
    constructor
    · rintro ⟨p, ⟨hp, hmemtn, hne⟩, rfl⟩
      refine ⟨⟨p, hp, rfl⟩, hmemtn, ?_⟩
      rw [recordedDataType_of_mem hk hp]
      simpa using hne
    · rintro ⟨⟨p, hp, rfl⟩, hmemtn, hne⟩
      refine ⟨p, ⟨hp, hmemtn, ?_⟩, rfl⟩
      rw [recordedDataType_of_mem hk hp] at hne
      simpa using hne
  rw [hL]
  refine ⟨_, _, _, rfl, ?_, ?_, ?_, ?_, ?_⟩
  · rintro ch hch
    rcases List.mem_map.mp hch with ⟨p, hp, rfl⟩
    exact ⟨rfl, rfl, rfl⟩
  · rintro ch hch
    rcases List.mem_map.mp hch with ⟨p, hp, rfl⟩
    exact ⟨rfl, rfl, rfl⟩
  · rintro ch hch
    rcases List.mem_map.mp hch with ⟨p, hp, rfl⟩
    exact ⟨rfl, rfl, rfl⟩
  · rw [List.map_append, List.map_append,
      map_column_name_map _ (fun p => p.1) (fun _ => rfl),
      map_column_name_map _ (fun m => m) (fun _ => rfl),
      map_column_name_map _ (fun p => p.1) (fun _ => rfl)]
    rw [List.nodup_append, List.nodup_append]
    refine ⟨⟨?_, ?_, ?_⟩, ?_, ?_⟩
    · exact List.Nodup.sublist ((List.filter_sublist _).map _) hk
    · rw [List.map_id']
      exact List.Nodup.filter _ (nodup_dedupKeys _)
    · intro n hnR hnA
      rw [List.map_id'] at hnA
      rcases List.mem_map.mp hnR with ⟨p, hpR, rfl⟩
      rcases List.mem_filter.mp hnA with ⟨hmem, hnotck⟩
      obtain ⟨hck, hntn⟩ := (hRmem p.1).mp
        ⟨_, List.mem_map.mpr ⟨p, hpR, rfl⟩, rfl⟩
      simp only [List.contains, Bool.not_eq_true', List.elem_eq_mem,
        decide_eq_false_iff_not] at hnotck
      exact hnotck hck
    · exact List.Nodup.sublist ((List.filter_sublist _).map _) hk
    · intro n hn hnT
      rcases List.mem_map.mp hnT with ⟨p, hpT, rfl⟩
      obtain ⟨hck, htn, _⟩ := (hTmem p.1).mp
        ⟨_, List.mem_map.mpr ⟨p, hpT, rfl⟩, rfl⟩
      rcases List.mem_append.mp hn with hnR | hnA
      · rcases List.mem_map.mp hnR with ⟨q, hqR, hq1⟩
        obtain ⟨_, hntn⟩ := (hRmem p.1).mp
          ⟨_, List.mem_map.mpr ⟨q, hqR, rfl⟩, hq1⟩
        exact hntn htn
      · rw [List.map_id'] at hnA
        rcases List.mem_filter.mp hnA with ⟨hmem, hnotck⟩
        simp only [List.contains, Bool.not_eq_true', List.elem_eq_mem,
          decide_eq_false_iff_not] at hnotck
        exact hnotck hck
  · intro n hn
    have hexR := hRmem n
    have hexA := hAmem n
    have hexT := hTmem n
    have memL : ∀ ch, ch ∈ (contract.schema_definition.filter (fun p =>
          !((table.columns.map Column.name).contains p.1))).map (fun p =>
        ({ table_fqn := fqn, change_type := "removed", column_name := p.1,
           old_value := some p.2.dataType, new_value := none,
           detected_at := now, severity := "breaking", impact_level := "high",
           requires_approval := true } : SchemaChange)) ++
        ((dedupKeys (table.columns.map Column.name)).filter (fun m =>
          !((contract.schema_definition.map Prod.fst).contains m))).map
        (fun m =>
        ({ table_fqn := fqn, change_type := "added", column_name := m,
           old_value := none,
           new_value := some (currentDataType table.columns m),
           detected_at := now, severity := "non-breaking",
           impact_level := "low", requires_approval := false } :
          SchemaChange)) ++
        (contract.schema_definition.filter (fun p =>
          (table.columns.map Column.name).contains p.1 &&
          p.2.dataType != currentDataType table.columns p.1)).map (fun p =>
        ({ table_fqn := fqn, change_type := "type_changed",
           column_name := p.1, old_value := some p.2.dataType,
           new_value := some (currentDataType table.columns p.1),
           detected_at := now, severity := "breaking", impact_level := "high",
           requires_approval := true } : SchemaChange)) ↔
        ch ∈ (contract.schema_definition.filter (fun p =>
          !((table.columns.map Column.name).contains p.1))).map (fun p =>
        ({ table_fqn := fqn, change_type := "removed", column_name := p.1,
           old_value := some p.2.dataType, new_value := none,
           detected_at := now, severity := "breaking", impact_level := "high",
           requires_approval := true } : SchemaChange)) ∨
        ch ∈ ((dedupKeys (table.columns.map Column.name)).filter (fun m =>
          !((contract.schema_definition.map Prod.fst).contains m))).map
        (fun m =>
        ({ table_fqn := fqn, change_type := "added", column_name := m,
           old_value := none,
           new_value := some (currentDataType table.columns m),
           detected_at := now, severity := "non-breaking",
           impact_level := "low", requires_approval := false } :
          SchemaChange)) ∨
        ch ∈ (contract.schema_definition.filter (fun p =>
          (table.columns.map Column.name).contains p.1 &&
          p.2.dataType != currentDataType table.columns p.1)).map (fun p =>
        ({ table_fqn := fqn, change_type := "type_changed",
           column_name := p.1, old_value := some p.2.dataType,
           new_value := some (currentDataType table.columns p.1),
           detected_at := now, severity := "breaking", impact_level := "high",
           requires_approval := true } : SchemaChange)) := by
      intro ch
      simp [List.mem_append, or_assoc]
    refine ⟨?_, ?_, ?_, ?_⟩
    · constructor
      · rintro ⟨ch, hch, hcol, htype⟩
        rcases (memL ch).mp hch with hchR | hchA | hchT
        · exact hexR.mp ⟨ch, hchR, hcol⟩
        · rcases List.mem_map.mp hchA with ⟨m, hm, rfl⟩
          simp at htype
        · rcases List.mem_map.mp hchT with ⟨p, hp, rfl⟩
          simp at htype
      · intro hpre
        rcases hexR.mpr hpre with ⟨ch, hchR, hcol⟩
        rcases List.mem_map.mp hchR with ⟨p, hp, rfl⟩
        exact ⟨_, (memL _).mpr (Or.inl hchR), hcol, rfl⟩
    · constructor
      · rintro ⟨ch, hch, hcol, htype⟩
        rcases (memL ch).mp hch with hchR | hchA | hchT
        · rcases List.mem_map.mp hchR with ⟨p, hp, rfl⟩
          simp at htype
        · exact hexA.mp ⟨ch, hchA, hcol⟩
        · rcases List.mem_map.mp hchT with ⟨p, hp, rfl⟩
          simp at htype
      · intro hpre
        rcases hexA.mpr hpre with ⟨ch, hchA, hcol⟩
        rcases List.mem_map.mp hchA with ⟨m, hm, rfl⟩
        exact ⟨_, (memL _).mpr (Or.inr (Or.inl hchA)), hcol, rfl⟩
    · constructor
      · rintro ⟨ch, hch, hcol, htype⟩
        rcases (memL ch).mp hch with hchR | hchA | hchT
        · rcases List.mem_map.mp hchR with ⟨p, hp, rfl⟩
          simp at htype
        · rcases List.mem_map.mp hchA with ⟨m, hm, rfl⟩
          simp at htype
        · exact hexT.mp ⟨ch, hchT, hcol⟩
      · intro hpre
        rcases hexT.mpr hpre with ⟨ch, hchT, hcol⟩
        rcases List.mem_map.mp hchT with ⟨p, hp, rfl⟩
        exact ⟨_, (memL _).mpr (Or.inr (Or.inr hchT)), hcol, rfl⟩
    · constructor
      · intro hall
        by_cases hck : n ∈ contract.schema_definition.map Prod.fst
        · by_cases htn : n ∈ table.columns.map Column.name
          · by_cases heq : recordedDataType contract.schema_definition n =
                some (currentDataType table.columns n)
            · exact ⟨hck, htn, heq⟩
            · rcases hexT.mpr ⟨hck, htn, heq⟩ with ⟨ch, hchT, hcol⟩
              exact absurd hcol (hall ch ((memL ch).mpr (Or.inr (Or.inr hchT))))
          · rcases hexR.mpr ⟨hck, htn⟩ with ⟨ch, hchR, hcol⟩
            exact absurd hcol (hall ch ((memL ch).mpr (Or.inl hchR)))
        · have htn : n ∈ table.columns.map Column.name := by
            rcases hn with h | h
            · exact absurd h hck
            · exact h
          rcases hexA.mpr ⟨htn, hck⟩ with ⟨ch, hchA, hcol⟩
          exact absurd hcol (hall ch ((memL ch).mpr (Or.inr (Or.inl hchA))))
      · rintro ⟨hck, htn, heq⟩ ch hch hcol
        rcases (memL ch).mp hch with hchR | hchA | hchT
        · exact (hexR.mp ⟨ch, hchR, hcol⟩).2 htn
        · exact (hexA.mp ⟨ch, hchA, hcol⟩).2 hck
        · exact (hexT.mp ⟨ch, hchT, hcol⟩).2.2 heq


/-- Witness for the C4 theorem: the schema-drift scenario store
(`order_id INT, status VARCHAR` recorded; `order_id INT, status INT,
amount DECIMAL` live). -/
theorem detect_schema_changes_partition_witness :
    ((detect_schema_changes driftStore "Deliver.raw.orders" driftTable
      0).map (fun ch => ch.column_name)).Nodup := by
  obtain ⟨R, A, T, hL, hR, hA, hT, hnodup, hper⟩ :=
    detect_schema_changes_partition driftStore "Deliver.raw.orders"
      driftTable 0 driftContract rfl (by decide)
  exact hnodup


/-- The schema-drift scenario end to end: recorded `order_id INT, status
VARCHAR` against live `order_id INT, status INT, amount DECIMAL` yields
exactly one non-breaking `added` for `amount` followed by one breaking
`type_changed` for `status`, and zero removals. -/
theorem drift_scenario_changes :
    detect_schema_changes driftStore "Deliver.raw.orders" driftTable 7 =
      [{ table_fqn := "Deliver.raw.orders", change_type := "added",
         column_name := "amount", old_value := none,
         new_value := some "DECIMAL", detected_at := 7,
         severity := "non-breaking", impact_level := "low",
         requires_approval := false },
       { table_fqn := "Deliver.raw.orders", change_type := "type_changed",
         column_name := "status", old_value := some "VARCHAR",
         new_value := some "INT", detected_at := 7, severity := "breaking",
         impact_level := "high", requires_approval := true }] := by
  decide

end DataStrategy
